import Mathlib

/-!
Verification of the OpenAI model-catalog adapter
(source file: src/lib/openai-models.ts).

The adapter fetches a provider model list, filters it to chat-capable
models, enriches each record with display metadata, sorts by a static
priority table, and caches the result with a 5-minute TTL.  The
definitions below are a shallow embedding of that TypeScript module:
JavaScript strings become Lean strings, the string methods startsWith
and includes become prefix / contiguous-sublist tests on character
lists, the mutable module-level cache becomes explicit state passing,
and the fetch call becomes a parameter describing the outcome of the
single outbound request.
-/

namespace OpenAIAdapter

/-- Embedding of the JavaScript string method s.startsWith(p). -/
def strStartsWith (s p : String) : Bool :=
  p.toList.isPrefixOf s.toList

/-- Contiguous-sublist test on lists, used to embed String.prototype.includes. -/
def hasSub : List Char → List Char → Bool
  | needle, [] => needle.isEmpty
  | needle, a :: rest => needle.isPrefixOf (a :: rest) || hasSub needle (rest)

/-- Embedding of the JavaScript string method s.includes(sub). -/
def strIncludes (s sub : String) : Bool :=
  hasSub sub.toList s.toList

/-- Raw record of the upstream response (interface OpenAIModel in the source). -/
structure OpenAIModel where
  id : String
  object : String
  created : Nat
  owned_by : String
deriving DecidableEq, Repr

/-- Normalized catalog entry (LLMModel shape produced by the adapter). -/
structure LLMModel where
  id : String
  name : String
  provider : String
  providerId : String
  multiModal : Bool
  isBeta : Bool
deriving DecidableEq, Repr

/-- The nameMap table of formatModelName, in source order. -/
def nameMap : List (String × String) :=
  [("gpt-5", "GPT-5"),
   ("gpt-5-mini", "GPT-5 Mini"),
   ("gpt-4.5-preview", "GPT-4.5 Preview"),
   ("gpt-4o", "GPT-4o"),
   ("gpt-4o-mini", "GPT-4o Mini"),
   ("gpt-4-turbo", "GPT-4 Turbo"),
   ("gpt-4-turbo-preview", "GPT-4 Turbo Preview"),
   ("gpt-4", "GPT-4"),
   ("gpt-3.5-turbo", "GPT-3.5 Turbo"),
   ("o1", "o1"),
   ("o1-mini", "o1-mini"),
   ("o1-preview", "o1 Preview")]

/-- Fallback of formatModelName: modelId.toUpperCase().replace(hyphens, spaces). -/
def upperHyphenToSpace (s : String) : String :=
  String.mk ((s.toList.map Char.toUpper).map (fun c => if c = '-' then ' ' else c))

/-- formatModelName from the source: exact lookup in nameMap, else the
uppercase hyphen-to-space fallback. -/
def formatModelName (modelId : String) : String :=
  match nameMap.lookup modelId with
  | some n => n
  | none => upperHyphenToSpace modelId

/-- The multiModalModels list of isMultiModalModel, in source order. -/
def multiModalModels : List String :=
  ["gpt-5", "gpt-5-mini", "gpt-4.5-preview", "gpt-4o", "gpt-4o-mini",
   "gpt-4-turbo", "gpt-4-vision-preview", "o1"]

/-- isMultiModalModel from the source: some token of the list occurs in the id. -/
def isMultiModalModel (modelId : String) : Bool :=
  multiModalModels.any (fun model => strIncludes modelId model)

/-- The betaModels list of isBetaModel, in source order. -/
def betaModels : List String :=
  ["gpt-5", "gpt-5-mini", "gpt-4.5-preview", "o1-preview"]

/-- isBetaModel from the source: some token of the list occurs in the id. -/
def isBetaModel (modelId : String) : Bool :=
  betaModels.any (fun model => strIncludes modelId model)

/-- The priorities table of getModelPriority, in object-literal insertion
order, which is the iteration order of Object.entries for these keys. -/
def priorities : List (String × Nat) :=
  [("gpt-5", 1),
   ("gpt-5-mini", 2),
   ("gpt-4.5-preview", 3),
   ("o1", 4),
   ("gpt-4o", 5),
   ("o1-mini", 6),
   ("gpt-4o-mini", 7),
   ("gpt-4-turbo", 8),
   ("gpt-4", 9),
   ("gpt-3.5-turbo", 10)]

/-- Loop body of getModelPriority: first table entry whose key occurs in the
id wins; otherwise 999. -/
def priorityScan : List (String × Nat) → String → Nat
  | [], _ => 999
  | (model, priority) :: rest, modelId =>
    if strIncludes modelId model then priority else priorityScan rest modelId

/-- getModelPriority from the source. -/
def getModelPriority (modelId : String) : Nat :=
  priorityScan priorities modelId

/-- The filter predicate inside fetchOpenAIModels (isValidModel in the source):
a chat-capable family prefix or exact alias, and neither of the two excluded
substrings. -/
def isValidModel (id : String) : Bool :=
  (strStartsWith id "gpt-" || strStartsWith id "o1" || strStartsWith id "o3"
    || decide (id = "gpt-4o") || decide (id = "gpt-4o-mini")
    || decide (id = "chatgpt-4o-latest"))
  && !(strIncludes id "instruct") && !(strIncludes id "base")

/-- The .filter stage of fetchOpenAIModels. -/
def filterModels (data : List OpenAIModel) : List OpenAIModel :=
  data.filter (fun model => isValidModel model.id)

/-- The .map stage of fetchOpenAIModels: build the normalized entry. -/
def toLLMModel (model : OpenAIModel) : LLMModel :=
  ⟨model.id, formatModelName model.id, "OpenAI", "openai",
    isMultiModalModel model.id, isBetaModel model.id⟩

/-- Filtered and enriched list, before sorting. -/
def enrichModels (data : List OpenAIModel) : List LLMModel :=
  (filterModels data).map toLLMModel

/-- The sort comparator of fetchOpenAIModels: ascending priority.  The
source compares with getModelPriority a minus getModelPriority b inside a
stable Array.prototype.sort, which orders by nondecreasing priority. -/
def modelLE (a b : LLMModel) : Bool :=
  decide (getModelPriority a.id ≤ getModelPriority b.id)

/-- The filter-map-sort pipeline of fetchOpenAIModels applied to the parsed
upstream data, embedded with a stable merge sort as Array.prototype.sort is
required to be stable. -/
def processModels (data : List OpenAIModel) : List LLMModel :=
  (enrichModels data).mergeSort modelLE

/-- Outcome of the single outbound fetch to the models endpoint, were it
attempted: a parsed success body, a non-2xx response with its status code and
status text, or a network-level failure (fetch rejecting). -/
inductive FetchOutcome where
  | success (data : List OpenAIModel)
  | httpError (status : Nat) (statusText : String)
  | transportError
deriving DecidableEq, Repr

/-- Inputs of one fetchOpenAIModels call: the optional apiKey argument, the
two environment variables consulted as fallbacks, and the outcome the network
would produce for this call. -/
structure FetchEnv where
  apiKey : Option String
  envNextPublicOpenaiApiKey : Option String
  envOpenaiApiKey : Option String
  outcome : FetchOutcome
deriving DecidableEq, Repr

/-- JavaScript disjunction on optional strings: the empty string is falsy, so
it falls through to the right operand. -/
def jsOrString (a b : Option String) : Option String :=
  match a with
  | some s => if s = "" then b else some s
  | none => b

/-- The key resolution line of fetchOpenAIModels together with the falsiness
test if (not key): none exactly when the resolved key is absent or empty. -/
def resolveKey (env : FetchEnv) : Option String :=
  match jsOrString env.apiKey
      (jsOrString env.envNextPublicOpenaiApiKey env.envOpenaiApiKey) with
  | some s => if s = "" then none else some s
  | none => none

/-- Whether this fetchOpenAIModels call issues the outbound request: the
function returns early, before the fetch, exactly when no key resolves. -/
def attemptsNetworkCall (env : FetchEnv) : Bool :=
  (resolveKey env).isSome

/-- The two error kinds that can escape the try block of fetchOpenAIModels:
the thrown Error for a non-ok response, carrying the upstream status code and
status text, and a transport-level rejection. -/
inductive FetchError where
  | upstream (status : Nat) (statusText : String)
  | transport
deriving DecidableEq, Repr

/-- Body of the try block of fetchOpenAIModels: early empty result without a
network call when no key resolves, the filter-map-sort pipeline on a parsed
success body, and an error for a non-ok response or a transport failure. -/
def fetchOpenAIModelsE (env : FetchEnv) : Except FetchError (List LLMModel) :=
  match resolveKey env with
  | none => .ok []
  | some _ =>
    match env.outcome with
    | .success data => .ok (processModels data)
    | .httpError status statusText => .error (.upstream status statusText)
    | .transportError => .error .transport

/-- fetchOpenAIModels from the source: the try body with its catch-all
boundary, which converts every error into an empty list. -/
def fetchOpenAIModels (env : FetchEnv) : List LLMModel :=
  match fetchOpenAIModelsE env with
  | .ok models => models
  | .error _ => []

/-- The module-level mutable cache: the cachedModels variable (null at start)
and the cacheTimestamp variable. -/
structure CacheState where
  cachedModels : Option (List LLMModel)
  cacheTimestamp : Int
deriving DecidableEq, Repr

/-- CACHE_DURATION from the source: 5 minutes in milliseconds. -/
def CACHE_DURATION : Int := 5 * 60 * 1000

/-- Result of one getCachedOpenAIModels call: the returned list, the cache
state after the call, and whether fetchOpenAIModels was invoked. -/
structure CachedResult where
  models : List LLMModel
  state : CacheState
  fetched : Bool
deriving DecidableEq, Repr

/-- getCachedOpenAIModels from the source: serve the cached list when the
cachedModels variable is non-null (an empty array is truthy) and the snapshot
is younger than CACHE_DURATION; otherwise invoke fetchOpenAIModels and
overwrite both cache variables with the result and the current time. -/
def getCachedOpenAIModels (env : FetchEnv) (now : Int) (st : CacheState) :
    CachedResult :=
  match st.cachedModels with
  | some models =>
    if now - st.cacheTimestamp < CACHE_DURATION then
      ⟨models, st, false⟩
    else
      ⟨fetchOpenAIModels env, ⟨some (fetchOpenAIModels env), now⟩, true⟩
  | none =>
    ⟨fetchOpenAIModels env, ⟨some (fetchOpenAIModels env), now⟩, true⟩

/-- clearOpenAIModelsCache from the source: reset both cache variables. -/
def clearOpenAIModelsCache : CacheState :=
  ⟨none, 0⟩

/-- Simplified retention predicate stated by the refinement claim: a prefix
match or the one alias not subsumed by a prefix, and neither excluded
substring.  Written from the claim, to be compared with isValidModel. -/
def simpleRetain (id : String) : Bool :=
  (strStartsWith id "gpt-" || strStartsWith id "o1" || strStartsWith id "o3"
    || decide (id = "chatgpt-4o-latest"))
  && !(strIncludes id "instruct") && !(strIncludes id "base")

/-- C1, counterexample: the claim asserts a priority rank of 7 for the
identifier gpt-4o-mini, but the table is scanned in insertion order with a
substring test and the earlier key gpt-4o already occurs in gpt-4o-mini, so
getModelPriority returns 5, not 7. -/
theorem C1_priority_counterexample :
    getModelPriority "gpt-4o-mini" = 5 ∧ ¬ (getModelPriority "gpt-4o-mini" = 7) := by
  decide

/-- C1, amended: for the identifier gpt-4o-mini the enrichment functions
produce display name GPT-4o Mini, multimodal support true and preview flag
false, and the priority rank is 5 (the first matching table key is gpt-4o,
whose rank shadows the dedicated gpt-4o-mini entry of rank 7). -/
theorem C1_enrichment_and_priority :
    formatModelName "gpt-4o-mini" = "GPT-4o Mini"
  ∧ isMultiModalModel "gpt-4o-mini" = true
  ∧ isBetaModel "gpt-4o-mini" = false
  ∧ getModelPriority "gpt-4o-mini" = 5 := by
  decide

/-- C2, counterexample: the claim asserts that o1-preview falls through to
rank 999, but the substring scan matches the table key o1 inside o1-preview
and returns 4, so the identifier is explicitly ranked and is not sorted after
the ranked entries. -/
theorem C2_priority_counterexample :
    getModelPriority "o1-preview" = 4 ∧ ¬ (getModelPriority "o1-preview" = 999) := by
  decide

/-- C2, amended: the filter retains o1-preview (it starts with o1 and has
neither excluded substring), its preview flag is true, and its priority rank
is 4 because the substring o1 matches the rank table, which sorts it before
any unranked entry of rank 999 rather than after all ranked ones. -/
theorem C2_o1_preview_retained_ranked :
    isValidModel "o1-preview" = true
  ∧ isBetaModel "o1-preview" = true
  ∧ getModelPriority "o1-preview" = 4
  ∧ getModelPriority "o1-preview" < 999 := by
  decide

/-- C10: the retention predicate of the source equals the simplified
predicate of the claim on every identifier; the aliases gpt-4o and
gpt-4o-mini are subsumed by the gpt- prefix test. -/
theorem C10_retention_equiv_simple (s : String) : isValidModel s = simpleRetain s := by
  by_cases h1 : s = "gpt-4o"
  · subst h1; decide
  by_cases h2 : s = "gpt-4o-mini"
  · subst h2; decide
  simp [isValidModel, simpleRetain, h1, h2]

/-- C4: the filter is order-preserving (its output is a sublist of its
input), it retains a record exactly when the identifier starts with gpt-, o1
or o3 or is one of the three exact aliases while containing neither instruct
nor base, and any identifier containing instruct or base is rejected by the
predicate regardless of any prefix or alias match. -/
theorem C4_filter_rule (ms : List OpenAIModel) (m : OpenAIModel) (id : String)
    (h : strIncludes id "instruct" = true ∨ strIncludes id "base" = true) :
    List.Sublist (filterModels ms) ms
  ∧ (m ∈ filterModels ms ↔ m ∈ ms ∧
      ((strStartsWith m.id "gpt-" || strStartsWith m.id "o1" || strStartsWith m.id "o3"
         || decide (m.id = "gpt-4o") || decide (m.id = "gpt-4o-mini")
         || decide (m.id = "chatgpt-4o-latest")) = true
       ∧ strIncludes m.id "instruct" = false ∧ strIncludes m.id "base" = false))
  ∧ isValidModel id = false := by
  refine ⟨List.filter_sublist _, ?_, ?_⟩
  · simp only [filterModels, List.mem_filter, isValidModel, Bool.and_eq_true,
      Bool.not_eq_true']
    tauto
  · rcases h with h | h <;> simp [isValidModel, h]

/-- C4 witness at a concrete input: the filter of a two-record list is a
sublist of it, the membership characterization holds for the gpt-4o record,
and gpt-4-base is rejected although it starts with gpt-. -/
theorem C4_filter_rule_witness :
    List.Sublist
      (filterModels [⟨"gpt-4o", "model", 0, "openai"⟩,
        ⟨"gpt-4-base", "model", 0, "openai"⟩])
      [⟨"gpt-4o", "model", 0, "openai"⟩, ⟨"gpt-4-base", "model", 0, "openai"⟩]
  ∧ ((⟨"gpt-4o", "model", 0, "openai"⟩ : OpenAIModel) ∈
      filterModels [⟨"gpt-4o", "model", 0, "openai"⟩,
        ⟨"gpt-4-base", "model", 0, "openai"⟩] ↔
      (⟨"gpt-4o", "model", 0, "openai"⟩ : OpenAIModel) ∈
        [⟨"gpt-4o", "model", 0, "openai"⟩, ⟨"gpt-4-base", "model", 0, "openai"⟩] ∧
      ((strStartsWith "gpt-4o" "gpt-" || strStartsWith "gpt-4o" "o1"
         || strStartsWith "gpt-4o" "o3"
         || decide (("gpt-4o" : String) = "gpt-4o")
         || decide (("gpt-4o" : String) = "gpt-4o-mini")
         || decide (("gpt-4o" : String) = "chatgpt-4o-latest")) = true
       ∧ strIncludes "gpt-4o" "instruct" = false
       ∧ strIncludes "gpt-4o" "base" = false))
  ∧ isValidModel "gpt-4-base" = false :=
  C4_filter_rule
    [⟨"gpt-4o", "model", 0, "openai"⟩, ⟨"gpt-4-base", "model", 0, "openai"⟩]
    ⟨"gpt-4o", "model", 0, "openai"⟩ "gpt-4-base" (Or.inr (by decide))

/-- C7: with a resolvable key and a non-2xx response, the try body of
fetchOpenAIModels fails with the upstream error carrying the status code and
status text; and whatever error the try body of any call produces, the
catch-all boundary converts it to an empty list, so no error reaches the
caller. -/
theorem C7_upstream_error_caught (env env2 : FetchEnv) (status : Nat)
    (statusText : String) (e : FetchError)
    (hout : env.outcome = .httpError status statusText)
    (hkey : attemptsNetworkCall env = true)
    (herr : fetchOpenAIModelsE env2 = .error e) :
    fetchOpenAIModelsE env = .error (.upstream status statusText)
  ∧ fetchOpenAIModels env = []
  ∧ fetchOpenAIModels env2 = [] := by
  obtain ⟨k, hk⟩ := Option.isSome_iff_exists.mp hkey
  have h1 : fetchOpenAIModelsE env = .error (.upstream status statusText) := by
    unfold fetchOpenAIModelsE
    rw [hk, hout]
  refine ⟨h1, ?_, ?_⟩
  · unfold fetchOpenAIModels
    rw [h1]
  · unfold fetchOpenAIModels
    rw [herr]

/-- C7 witness at a concrete failing call: a 500 response with a present key
yields the internal upstream error and an empty public result, and a
transport failure also degrades to an empty list. -/
theorem C7_upstream_error_caught_witness :
    fetchOpenAIModelsE ⟨some "sk", none, none, .httpError 500 "Internal Server Error"⟩
      = .error (.upstream 500 "Internal Server Error")
  ∧ fetchOpenAIModels ⟨some "sk", none, none, .httpError 500 "Internal Server Error"⟩ = []
  ∧ fetchOpenAIModels ⟨some "sk", none, none, .transportError⟩ = [] :=
  C7_upstream_error_caught
    ⟨some "sk", none, none, .httpError 500 "Internal Server Error"⟩
    ⟨some "sk", none, none, .transportError⟩
    500 "Internal Server Error" .transport rfl rfl rfl

/-- C8: when the argument and both environment fallbacks are absent or empty,
fetchOpenAIModels returns the empty list as a successful result, without
attempting the network call. -/
theorem C8_no_credential_soft_empty (env : FetchEnv)
    (h1 : env.apiKey = none ∨ env.apiKey = some "")
    (h2 : env.envNextPublicOpenaiApiKey = none ∨ env.envNextPublicOpenaiApiKey = some "")
    (h3 : env.envOpenaiApiKey = none ∨ env.envOpenaiApiKey = some "") :
    fetchOpenAIModelsE env = .ok []
  ∧ fetchOpenAIModels env = []
  ∧ attemptsNetworkCall env = false := by
  have hr : resolveKey env = none := by
    unfold resolveKey jsOrString
    rcases h1 with h1 | h1 <;> rcases h2 with h2 | h2 <;> rcases h3 with h3 | h3 <;>
      simp [h1, h2, h3]
  have hE : fetchOpenAIModelsE env = .ok [] := by
    unfold fetchOpenAIModelsE
    rw [hr]
  refine ⟨hE, ?_, ?_⟩
  · unfold fetchOpenAIModels
    rw [hE]
  · unfold attemptsNetworkCall
    rw [hr]
    rfl

/-- C8 witness: with no key argument, one empty environment variable and one
absent one, the call returns an empty successful result and does not attempt
the network. -/
theorem C8_no_credential_soft_empty_witness :
    fetchOpenAIModelsE ⟨none, some "", none, .success []⟩ = .ok []
  ∧ fetchOpenAIModels ⟨none, some "", none, .success []⟩ = []
  ∧ attemptsNetworkCall ⟨none, some "", none, .success []⟩ = false :=
  C8_no_credential_soft_empty ⟨none, some "", none, .success []⟩
    (Or.inl rfl) (Or.inr rfl) (Or.inl rfl)

/-- Cache hit: a non-null snapshot younger than the TTL is served unchanged
and fetchOpenAIModels is not invoked. -/
theorem getCached_hit (env : FetchEnv) (now : Int) (st : CacheState)
    (ms : List LLMModel) (hc : st.cachedModels = some ms)
    (ht : now - st.cacheTimestamp < CACHE_DURATION) :
    getCachedOpenAIModels env now st = ⟨ms, st, false⟩ := by
  unfold getCachedOpenAIModels
  rw [hc]
  simp [ht]

/-- Cache miss (null snapshot or expired snapshot): fetchOpenAIModels is
invoked and its result overwrites the snapshot with the current time. -/
theorem getCached_miss (env : FetchEnv) (now : Int) (st : CacheState)
    (h : st.cachedModels = none ∨ ¬ (now - st.cacheTimestamp < CACHE_DURATION)) :
    getCachedOpenAIModels env now st
      = ⟨fetchOpenAIModels env, ⟨some (fetchOpenAIModels env), now⟩, true⟩ := by
  unfold getCachedOpenAIModels
  rcases h with h | h
  · rw [h]
  · cases hm : st.cachedModels with
    | none => rfl
    | some ms => simp [h]

/-- C5: a snapshot younger than 300000 ms is returned as is without invoking
the fetch; consequently, after a first call on an empty cache that did fetch
with a resolvable key, a second call within 300000 ms does not fetch and
returns the same list, so the pair of calls performs exactly one upstream
call. -/
theorem C5_cache_hit_single_fetch (env : FetchEnv) (now1 now2 : Int)
    (st st0 : CacheState) (ms : List LLMModel)
    (hc : st.cachedModels = some ms)
    (ht : now1 - st.cacheTimestamp < CACHE_DURATION)
    (h0 : st0.cachedModels = none)
    (hkey : attemptsNetworkCall env = true)
    (h12 : now2 - now1 < CACHE_DURATION) :
    getCachedOpenAIModels env now1 st = ⟨ms, st, false⟩
  ∧ (getCachedOpenAIModels env now1 st0).fetched = true
  ∧ attemptsNetworkCall env = true
  ∧ (getCachedOpenAIModels env now2 (getCachedOpenAIModels env now1 st0).state).fetched
      = false
  ∧ (getCachedOpenAIModels env now2 (getCachedOpenAIModels env now1 st0).state).models
      = (getCachedOpenAIModels env now1 st0).models := by
  have hm := getCached_miss env now1 st0 (Or.inl h0)
  have hstate : (getCachedOpenAIModels env now1 st0).state
      = ⟨some (fetchOpenAIModels env), now1⟩ := by rw [hm]
  have hhit := getCached_hit env now2 (getCachedOpenAIModels env now1 st0).state
    (fetchOpenAIModels env) (by rw [hstate]) (by rw [hstate]; exact h12)
  refine ⟨getCached_hit env now1 st ms hc ht, by rw [hm], hkey, by rw [hhit], ?_⟩
  rw [hhit, hm]

/-- C5 witness at concrete values: a warm snapshot at time 0 is served at
time 1000, and on an initially empty cache a call at time 1000 fetches while
the follow-up at time 2000 does not and returns the same list. -/
theorem C5_cache_hit_single_fetch_witness :
    getCachedOpenAIModels ⟨some "sk", none, none, .success []⟩ 1000 ⟨some [], 0⟩
      = ⟨[], ⟨some [], 0⟩, false⟩
  ∧ (getCachedOpenAIModels ⟨some "sk", none, none, .success []⟩ 1000 ⟨none, 0⟩).fetched
      = true
  ∧ attemptsNetworkCall ⟨some "sk", none, none, .success []⟩ = true
  ∧ (getCachedOpenAIModels ⟨some "sk", none, none, .success []⟩ 2000
      (getCachedOpenAIModels ⟨some "sk", none, none, .success []⟩ 1000 ⟨none, 0⟩).state).fetched
      = false
  ∧ (getCachedOpenAIModels ⟨some "sk", none, none, .success []⟩ 2000
      (getCachedOpenAIModels ⟨some "sk", none, none, .success []⟩ 1000 ⟨none, 0⟩).state).models
      = (getCachedOpenAIModels ⟨some "sk", none, none, .success []⟩ 1000 ⟨none, 0⟩).models :=
  C5_cache_hit_single_fetch ⟨some "sk", none, none, .success []⟩ 1000 2000
    ⟨some [], 0⟩ ⟨none, 0⟩ [] rfl (by decide) rfl rfl (by decide)

/-- C6: on a cache miss the wrapper stores whatever fetchOpenAIModels
returned as the new snapshot stamped with the current time, even when the
try body failed and the result is the empty list; the empty snapshot is then
served without a fetch for any call within the TTL. -/
theorem C6_empty_result_cached (env : FetchEnv) (now now2 : Int)
    (st : CacheState) (e : FetchError)
    (hmiss : st.cachedModels = none ∨ ¬ (now - st.cacheTimestamp < CACHE_DURATION))
    (herr : fetchOpenAIModelsE env = .error e)
    (h2 : now2 - now < CACHE_DURATION) :
    getCachedOpenAIModels env now st
      = ⟨fetchOpenAIModels env, ⟨some (fetchOpenAIModels env), now⟩, true⟩
  ∧ fetchOpenAIModels env = []
  ∧ getCachedOpenAIModels env now st = ⟨[], ⟨some [], now⟩, true⟩
  ∧ getCachedOpenAIModels env now2 ⟨some [], now⟩ = ⟨[], ⟨some [], now⟩, false⟩ := by
  have hfe : fetchOpenAIModels env = [] := by
    unfold fetchOpenAIModels
    rw [herr]
  have hm := getCached_miss env now st hmiss
  refine ⟨hm, hfe, ?_, ?_⟩
  · rw [hm, hfe]
  · exact getCached_hit env now2 ⟨some [], now⟩ [] rfl (by simpa using h2)

/-- C6 witness at a concrete outage: a 503 response on an empty cache stores
an empty snapshot stamped 1000, and a call at 2000 serves the empty snapshot
without fetching. -/
theorem C6_empty_result_cached_witness :
    getCachedOpenAIModels ⟨some "sk", none, none, .httpError 503 "Service Unavailable"⟩
        1000 ⟨none, 0⟩
      = ⟨fetchOpenAIModels ⟨some "sk", none, none, .httpError 503 "Service Unavailable"⟩,
          ⟨some (fetchOpenAIModels
            ⟨some "sk", none, none, .httpError 503 "Service Unavailable"⟩), 1000⟩, true⟩
  ∧ fetchOpenAIModels ⟨some "sk", none, none, .httpError 503 "Service Unavailable"⟩ = []
  ∧ getCachedOpenAIModels ⟨some "sk", none, none, .httpError 503 "Service Unavailable"⟩
        1000 ⟨none, 0⟩
      = ⟨[], ⟨some [], 1000⟩, true⟩
  ∧ getCachedOpenAIModels ⟨some "sk", none, none, .httpError 503 "Service Unavailable"⟩
        2000 ⟨some [], 1000⟩
      = ⟨[], ⟨some [], 1000⟩, false⟩ :=
  C6_empty_result_cached ⟨some "sk", none, none, .httpError 503 "Service Unavailable"⟩
    1000 2000 ⟨none, 0⟩ (.upstream 503 "Service Unavailable") (Or.inl rfl) rfl (by decide)

/-- C9: clearing the cache nulls the snapshot, and the next cached call
always invokes fetchOpenAIModels and returns its result, regardless of when
the previous snapshot had been populated. -/
theorem C9_clear_forces_refresh (env : FetchEnv) (now : Int) :
    clearOpenAIModelsCache.cachedModels = none
  ∧ (getCachedOpenAIModels env now clearOpenAIModelsCache).fetched = true
  ∧ (getCachedOpenAIModels env now clearOpenAIModelsCache).models
      = fetchOpenAIModels env := by
  exact ⟨rfl, rfl, rfl⟩

/-- The sort comparator is transitive. -/
theorem modelLE_trans (a b c : LLMModel) (hab : modelLE a b = true)
    (hbc : modelLE b c = true) : modelLE a c = true := by
  unfold modelLE at hab hbc ⊢
  exact decide_eq_true (Nat.le_trans (of_decide_eq_true hab) (of_decide_eq_true hbc))

/-- The sort comparator is total. -/
theorem modelLE_total (a b : LLMModel) : modelLE a b || modelLE b a := by
  unfold modelLE
  rcases Nat.le_total (getModelPriority a.id) (getModelPriority b.id) with h | h <;>
    simp [h]

/-- An identifier in which no table key occurs falls through the scan to
the default rank 999. -/
theorem priorityScan_no_match : ∀ (l : List (String × Nat)) (id : String),
    (∀ p ∈ l, strIncludes id p.1 = false) → priorityScan l id = 999
  | [], _, _ => rfl
  | (model, priority) :: rest, id, h => by
    have h0 : strIncludes id model = false := h (model, priority) (List.mem_cons_self _ _)
    have ih := priorityScan_no_match rest id (fun p hp => h p (List.mem_cons_of_mem _ hp))
    simp [priorityScan, h0, ih]

/-- Stability of the sort, expressed through filters: the entries of any
fixed priority rank appear in the sorted output exactly in their pre-sort
order. -/
theorem processModels_filter_stable (data : List OpenAIModel) (k : Nat) :
    (processModels data).filter (fun m => decide (getModelPriority m.id = k))
      = (enrichModels data).filter (fun m => decide (getModelPriority m.id = k)) := by
  set p : LLMModel → Bool := fun m => decide (getModelPriority m.id = k) with hp
  have hmemp : ∀ a ∈ (enrichModels data).filter p, p a = true := by
    intro a ha
    exact List.of_mem_filter ha
  have hpair : ((enrichModels data).filter p).Pairwise (fun a b => modelLE a b = true) := by
    apply List.pairwise_of_forall_mem_list
    intro a ha b hb
    have hak : getModelPriority a.id = k := of_decide_eq_true (hmemp a ha)
    have hbk : getModelPriority b.id = k := of_decide_eq_true (hmemp b hb)
    unfold modelLE
    rw [hak, hbk]
    exact decide_eq_true (Nat.le_refl k)
  have hsub : List.Sublist ((enrichModels data).filter p) (processModels data) := by
    unfold processModels
    exact List.sublist_mergeSort modelLE_trans modelLE_total hpair (List.filter_sublist _)
  have hsubf : List.Sublist ((enrichModels data).filter p)
      ((processModels data).filter p) := by
    have hfix : ((enrichModels data).filter p).filter p = (enrichModels data).filter p :=
      List.filter_eq_self.mpr hmemp
    have := hsub.filter p
    rwa [hfix] at this
  have hperm : List.Perm ((processModels data).filter p) ((enrichModels data).filter p) := by
    unfold processModels
    exact (List.mergeSort_perm (enrichModels data) modelLE).filter p
  exact (hsubf.eq_of_length hperm.length_eq.symm).symm

/-- C3: the pipeline output is sorted by nondecreasing priority rank, any
identifier in which no key of the static table occurs receives the default
rank 999, and the sort is stable in that the entries of any fixed rank keep
their relative pre-sort (hence upstream) order. -/
theorem C3_sorted_default_stable (data : List OpenAIModel) (k : Nat) (id : String)
    (h : ∀ p ∈ priorities, strIncludes id p.1 = false) :
    (processModels data).Pairwise
      (fun a b => getModelPriority a.id ≤ getModelPriority b.id)
  ∧ getModelPriority id = 999
  ∧ (processModels data).filter (fun m => decide (getModelPriority m.id = k))
      = (enrichModels data).filter (fun m => decide (getModelPriority m.id = k)) := by
  refine ⟨?_, ?_, processModels_filter_stable data k⟩
  · have hs := List.sorted_mergeSort modelLE_trans modelLE_total (enrichModels data)
    exact hs.imp (fun hab => of_decide_eq_true hab)
  · unfold getModelPriority
    exact priorityScan_no_match priorities id h

/-- C3 witness at a concrete upstream list and an unmatched identifier:
a two-entry catalog is sorted by rank, the rank-5 entries keep their
pre-sort order, and davinci-002 matches no table key and ranks 999. -/
theorem C3_sorted_default_stable_witness :
    (processModels [⟨"gpt-4o-mini", "model", 0, "openai"⟩,
        ⟨"gpt-4o", "model", 0, "openai"⟩]).Pairwise
      (fun a b => getModelPriority a.id ≤ getModelPriority b.id)
  ∧ getModelPriority "davinci-002" = 999
  ∧ (processModels [⟨"gpt-4o-mini", "model", 0, "openai"⟩,
        ⟨"gpt-4o", "model", 0, "openai"⟩]).filter
        (fun m => decide (getModelPriority m.id = 5))
      = (enrichModels [⟨"gpt-4o-mini", "model", 0, "openai"⟩,
          ⟨"gpt-4o", "model", 0, "openai"⟩]).filter
        (fun m => decide (getModelPriority m.id = 5)) :=
  C3_sorted_default_stable
    [⟨"gpt-4o-mini", "model", 0, "openai"⟩, ⟨"gpt-4o", "model", 0, "openai"⟩]
    5 "davinci-002" (by decide)

end OpenAIAdapter
